import Mathlib

/-
Verification of ParcelDerivatives.py, a batch script that derives parcel feature
classes with a GIS geoprocessing engine (arcpy).  The script is a single function
derived_parcels() containing nine straight-line pipeline stages wrapped in a
try/except/finally harness.  We embed

  * the dataset paths the script builds with os.path.join,
  * every geoprocessing call of every stage as an explicit operation value,
  * the try/except/finally control flow as a function from a failure
    environment (which call raises, and with which exception class) to the
    emitted trace of events (geoprocessing calls, log lines, console output)
    and the exception, if any, that propagates out of derived_parcels,
  * small denotational models of the vendor operations (table filter, join,
    append, select-by-location) needed by the data-content claims.

Vendor (arcpy) calls are effectful library calls; the embedding records each
call with the argument strings exactly as the script passes them.  Result
objects returned by AddJoin_management and SelectLayerBy*_management stand for
their input layer with the join or selection applied; the embedding records the
underlying dataset of such a result where the script passes the result to a
later call.  Omitted optional arguments are recorded with their documented
arcpy default values.
-/

set_option maxRecDepth 10000
set_option maxHeartbeats 1000000

namespace ParcelDerivatives

/-- Windows path join as performed by os.path.join on the absolute paths used by
the script (the script targets Windows drive paths, so the separator is a
backslash). -/
def pathJoin (a b : String) : String := a ++ "\\" ++ b

/- Dataset paths, transcribed from the assignments at the top of
derived_parcels() (ParcelDerivatives.py lines 74-140). -/

def fgdb_services : String := "F:\\Shares\\FGDB_Services"

def connections : String := pathJoin fgdb_services "DatabaseConnections"

def data : String := pathJoin fgdb_services "Data"

def cityworks_view : String := pathJoin connections "DA@mcwintcwdb.cwprod@CityworksView.sde"

def cityworks_prod : String := pathJoin connections "da@mcwintcwdb.cwprod@imSPFLD.sde"

def sde : String := pathJoin connections "COSGIS@10.136.40.46@SOA.sde"

def rdl : String := "X:\\FG_RDL.gdb"

def assessment_information : String := pathJoin cityworks_prod "AssessmentInformation"

def enterprise_zone : String := pathJoin assessment_information "EnterpriseZone"

def tif_districts : String := pathJoin assessment_information "TIFDistrict"

def reference_data : String := pathJoin cityworks_prod "ReferenceData"

def facility_site_point : String := pathJoin reference_data "FacilitySitePoint"

def parcel_owners : String := pathJoin sde "soa.SANGIS.ptinfo1"

def cadastral : String := pathJoin sde "soa.SANGIS.Cadastral"

def demography : String := pathJoin cityworks_prod "Demography"

def census_tracts : String := pathJoin demography "Tract2010Insp"

def qualified_census_tracts : String := pathJoin demography "CenTract_Qualified"

def parcel_polygons : String := pathJoin cadastral "soa.SANGIS.Parcel_Poly"

def parcel_derivatives : String := pathJoin data "ParcelDerivatives.gdb"

def parcels : String := pathJoin parcel_derivatives "ParcelPolygons"

def parcels_nehemiah_table : String := pathJoin parcel_derivatives "Parcels_Nehemiah_table"

def parcels_tsp_table : String := pathJoin parcel_derivatives "Parcels_TSP_table"

def parcels_city_table : String := pathJoin parcel_derivatives "Parcels_City_table"

def parcels_commercial_table : String := pathJoin parcel_derivatives "Parcels_Commercial_table"

def parcels_owner_city : String := pathJoin parcel_derivatives "Parcels_City"

def parcels_cwlp : String := pathJoin parcel_derivatives "Parcels_CWLP"

def parcels_cospw : String := pathJoin parcel_derivatives "Parcels_COSPW"

def parcels_oped : String := pathJoin parcel_derivatives "Parcels_OPED"

def parcels_trustee : String := pathJoin parcel_derivatives "Parcels_CountyTrustee"

def parcels_poi : String := pathJoin parcel_derivatives "Parcel_POI"

def parcels_surplus : String := pathJoin rdl "SurplusProperty"

def permits_issued : String := pathJoin parcel_derivatives "Permits_Issued"

def permits_CTQ : String := pathJoin parcel_derivatives "Permits_CTQ"

def permits_CTQ_EZ : String := pathJoin parcel_derivatives "Permits_CTQ_EZ"

def permits_CTQ_EZ_TIF : String := pathJoin parcel_derivatives "Permits_CTQ_EZ_TIF"

def permits_CTQ_EZ_TIF_WARDS : String := pathJoin parcel_derivatives "Permits_CTQ_EZ_TIF_WARDS"

def permits_opportunity_zones : String := pathJoin parcel_derivatives "Permits_OpportunityZones"

def parcels_permits_issued : String := pathJoin parcel_derivatives "Parcels_PermitsIssued"

def parcels_owner_medical_table : String := pathJoin parcel_derivatives "Parcels_Medical_table"

def parcels_owner_schools_table : String := pathJoin parcel_derivatives "Parcels_Schools_table"

def parcels_owner_state_table : String := pathJoin parcel_derivatives "Parcels_State_table"

def admin_area : String := pathJoin cityworks_prod "AdministrativeArea"

def admin_area_merged : String := pathJoin admin_area "SPI_Administrative_Areas_Merged"

def city_limits : String := pathJoin admin_area "SPI_LIMITS"

def infrastructure_operations : String := pathJoin cityworks_prod "InfrastructureOperations"

def row : String := pathJoin infrastructure_operations "ROW"

def mow_zones : String := pathJoin parcel_derivatives "MowZones"

/-- List of features to clean up, transcribed from the to_delete list
(ParcelDerivatives.py lines 142-145). -/
def to_delete : List String :=
  [parcels, permits_CTQ, permits_CTQ_EZ, permits_CTQ_EZ_TIF, permits_CTQ_EZ_TIF_WARDS,
   parcels_nehemiah_table, parcels_tsp_table, parcels_city_table,
   parcels_owner_city, parcels_owner_medical_table, parcels_owner_schools_table,
   parcels_owner_state_table, parcels_commercial_table]

/- Character-list utilities used to analyse the strings the script builds. -/

/-- Check that the first list is a prefix of the second. -/
def listStarts : List Char → List Char → Bool
  | [], _ => true
  | _ :: _, [] => false
  | p :: ps, c :: cs => p == c && listStarts ps cs

/-- Number of positions of `l` at which the pattern `pat` occurs. -/
def countOccurs (pat : List Char) : List Char → Nat
  | [] => if listStarts pat [] then 1 else 0
  | c :: cs => (if listStarts pat (c :: cs) then 1 else 0) + countOccurs pat cs

/-- Substring occurrence test on strings. -/
def occursIn (pat s : String) : Bool := countOccurs pat.data s.data != 0

/-- Split a character list at every occurrence of the separator character. -/
def splitOnChar (sep : Char) : List Char → List (List Char)
  | [] => [[]]
  | c :: cs =>
      let r := splitOnChar sep cs
      if c == sep then [] :: r
      else
        match r with
        | [] => [[c]]
        | h :: t => (c :: h) :: t

/-- Semicolon character, the separator between field mappings in an arcpy
field-mapping string. -/
def semicolonChar : Char := Char.ofNat 59

/-- Comma character, the separator between tokens within one field mapping. -/
def commaChar : Char := Char.ofNat 44

/-- Prefix of the second string test, on the underlying character lists. -/
def strStarts (s pre : String) : Bool := listStarts pre.data s.data

/-- Lower-cased character list of a string.  Dataset names inside a file
geodatabase are case-insensitive, so dataset identity is compared on the
lower-cased name. -/
def lowerData (s : String) : List Char := s.data.map Char.toLower

/-- Case-insensitive dataset-path equality (file-geodatabase name semantics). -/
def sameDataset (a b : String) : Bool := lowerData a == lowerData b

/- Strings the script builds and passes to arcpy calls, transcribed literally.
Adjacent Python string literals concatenate, so each multi-line literal of the
source is one string; the f-string interpolations are resolved by appending the
interpolated path definitions.  Apostrophes and dashes inside the strings are
written with character escapes. -/

/-- SQL statement of the MakeQueryLayer_management call (lines 155-157). -/
def issuedPermitsSql : String :=
  "select Shape,ObjectID,CA_OBJECT_ID,CaseNumber,TypeDescription,SubTypeDescription,Status," ++
  "LOCATION,NAME,ROLE_DESC,TASK_COMPLETE_DATE,BusinessOwner,SUM_PAYMENT_AMOUNT,ASSET_ID_Parcel," ++
  "VALUE from CityWorksView.dbo.vw_PLL_IssuedPermits"

/-- Spatial-reference argument of the MakeQueryLayer_management call
(lines 158-167). -/
def issuedPermitsSpatialReference : String :=
  "PROJCS[\x27NAD_1983_StatePlane_Illinois_West_FIPS_1202_Feet\x27,GEOGCS[\x27GCS_North_American_1983\x27,DATUM[\x27D_North_American_1983\x27,SPHEROID[\x27GRS_1980\x27,6378137.0,298.257222101]]," ++
  "PRIMEM[\x27Greenwich\x27,0.0],UNIT[\x27Degree\x27,0.0174532925199433]]," ++
  "PROJECTION[\x27Transverse_Mercator\x27]," ++
  "PARAMETER[\x27False_Easting\x27,2296583.333333333]," ++
  "PARAMETER[\x27False_Northing\x27,0.0]," ++
  "PARAMETER[\x27Central_Meridian\x27,-90.16666666666667]," ++
  "PARAMETER[\x27Scale_Factor\x27,0.9999411764705882]," ++
  "PARAMETER[\x27Latitude_Of_Origin\x27,36.66666666666666]," ++
  "UNIT[\x27Foot_US\x27,0.3048006096012192]];" ++
  "-16150900 -46131100 3048.00609601219;-100000 10000;-100000 10000;3.28083333333333E-03;0.001;0.001;IsHighPrecision"

/-- Field-mapping string of the SpatialJoin_analysis call that produces
Permits_CTQ (lines 173-206), with the qualified_census_tracts path
interpolated as in the f-string literals of the source. -/
def censusFieldMapping : String :=
  "CA_OBJECT_ID \x27CA_OBJECT_ID\x27 true true false 8 Double 0 0,First,#,Permits_Issued,CA_OBJECT_ID,-1,-1;" ++
  "CaseNumber \x27CaseNumber\x27 true true false 20 Text 0 0,First,#,Permits_Issued,CaseNumber,0,20;" ++
  "TypeDescription \x27TypeDescription\x27 true true false 40 Text 0 0,First,#,Permits_Issued,TypeDescription,0,40;" ++
  "SubTypeDescription \x27SubTypeDescription\x27 true true false 40 Text 0 0,First,#,Permits_Issued,SubTypeDescription,0,40;" ++
  "Status \x27Status\x27 true true false 10 Text 0 0,First,#,Permits_Issued,Status,0,10;" ++
  "LOCATION \x27LOCATION\x27 true true false 100 Text 0 0,First,#,Permits_Issued,LOCATION,0,100;" ++
  "NAME \x27NAME\x27 true true false 60 Text 0 0,First,#,Permits_Issued,NAME,0,60;" ++
  "ROLE_DESC \x27ROLE_DESC\x27 true true false 40 Text 0 0,First,#,Permits_Issued,ROLE_DESC,0,40;" ++
  "TASK_COMPLETE_DATE \x27TASK_COMPLETE_DATE\x27 true true false 8 Date 0 0,First,#,Permits_Issued,TASK_COMPLETE_DATE,-1,-1;" ++
  "BusinessOwner \x27BusinessOwner\x27 true true false 60 Text 0 0,First,#,Permits_Issued,BusinessOwner,0,60;" ++
  "SUM_PAYMENT_AMOUNT \x27SUM_PAYMENT_AMOUNT\x27 true true false 8 Double 0 0,First,#,Permits_Issued,SUM_PAYMENT_AMOUNT,-1,-1;" ++
  "ASSET_ID_Parcel \x27ASSET_ID_Parcel\x27 true true false 50 Text 0 0,First,#,Permits_Issued,ASSET_ID_Parcel,0,50;" ++
  "OBJECTID \x27OBJECTID\x27 true true false 4 Long 0 10,First,#," ++ qualified_census_tracts ++ ",OBJECTID,-1,-1;" ++
  "STATEFP10 \x27STATEFP10\x27 true true false 2 Text 0 0,First,#," ++ qualified_census_tracts ++ ",STATEFP10,0,2;" ++
  "COUNTYFP10 \x27COUNTYFP10\x27 true true false 3 Text 0 0,First,#," ++ qualified_census_tracts ++ ",COUNTYFP10,0,3;" ++
  "TRACTCE10 \x27TRACTCE10\x27 true true false 6 Text 0 0,First,#," ++ qualified_census_tracts ++ ",TRACTCE10,0,6;" ++
  "GEOID10 \x27GEOID10\x27 true true false 11 Text 0 0,First,#," ++ qualified_census_tracts ++ ",GEOID10,0,11;" ++
  "NAME10 \x27NAME10\x27 true true false 7 Text 0 0,First,#," ++ qualified_census_tracts ++ ",NAME10,0,7;" ++
  "NAMELSAD10 \x27NAMELSAD10\x27 true true false 20 Text 0 0,First,#," ++ qualified_census_tracts ++ ",NAMELSAD10,0,20;" ++
  "MTFCC10 \x27MTFCC10\x27 true true false 5 Text 0 0,First,#," ++ qualified_census_tracts ++ ",MTFCC10,0,5;" ++
  "FUNCSTAT10 \x27FUNCSTAT10\x27 true true false 1 Text 0 0,First,#," ++ qualified_census_tracts ++ ",FUNCSTAT10,0,1;" ++
  "ALAND10 \x27ALAND10\x27 true true false 8 Double 8 38,First,#," ++ qualified_census_tracts ++ ",ALAND10,-1,-1;" ++
  "AWATER10 \x27AWATER10\x27 true true false 8 Double 8 38,First,#," ++ qualified_census_tracts ++ ",AWATER10,-1,-1;" ++
  "INTPTLAT10 \x27INTPTLAT10\x27 true true false 11 Text 0 0,First,#," ++ qualified_census_tracts ++ ",INTPTLAT10,0,11;" ++
  "INTPTLON10 \x27INTPTLON10\x27 true true false 12 Text 0 0,First,#," ++ qualified_census_tracts ++ ",INTPTLON10,0,12;" ++
  "CT_2010 \x27CT_2010\x27 true true false 8 Double 8 38,First,#," ++ qualified_census_tracts ++ ",CT_2010,-1,-1;" ++
  "Inspector \x27Inspector\x27 true true false 30 Text 0 0,First,#," ++ qualified_census_tracts ++ ",Inspector,0,30;" ++
  "InspUserNa \x27InspUserNa\x27 true true false 18 Text 0 0,First,#," ++ qualified_census_tracts ++ ",InspUserNa,0,18;" ++
  "SID \x27SID\x27 true true false 8 Double 8 38,First,#," ++ qualified_census_tracts ++ ",SID,-1,-1;" ++
  "GlobalID \x27GlobalID\x27 true true false 38 Text 0 0,First,#," ++ qualified_census_tracts ++ ",GlobalID,0,38;" ++
  "Shape_STAr \x27Shape_STAr\x27 true true false 8 Double 8 38,First,#," ++ qualified_census_tracts ++ ",Shape_STAr,-1,-1;" ++
  "Shape_STLe \x27Shape_STLe\x27 true true false 8 Double 8 38,First,#," ++ qualified_census_tracts ++ ",Shape_STLe,-1,-1;" ++
  "GlobalID_1 \x27GlobalID_1\x27 false false false 38 GlobalID 0 0,First,#," ++ qualified_census_tracts ++ ",GlobalID_1,-1,-1;" ++
  "VALUE \x27VALUE\x27 true true false 255 Text 0 0,First,#," ++ qualified_census_tracts ++ ",VALUE,-1,-1"

/-- Where clause of the Nehemiah TableToTable_conversion call (lines 246-249). -/
def nehemiahWhereSql : String :=
  "Owner1 LIKE \x27%NEHEMIAH AFFORDABLE HOUSING II%\x27 Or " ++
  "Owner1 LIKE \x27%NEHEMIAH AFFORDABLE HOUSING LP%\x27 Or " ++
  "Owner1 LIKE \x27%NEHEMIAH EXPANSION%\x27 Or " ++
  "Owner1 LIKE \x27%NEHEMIAH PSJ LP%\x27"

/-- Where clause of the TSP TableToTable_conversion call (line 256). -/
def tspWhereSql : String := "Owner1 LIKE \x27%TSP%\x27"

/-- Where clause of the city-parcels TableToTable_conversion call (line 263). -/
def cityWhereSql : String :=
  "MTGCode = 26 Or MTGCODE =66 Or MTGCode = 72 Or MTGCode = 73 Or Owner1 = \x27SANGAMON COUNTY TRUSTEE\x27"

/-- Field-mapping string of the city-parcels TableToTable_conversion call
(lines 264-267), with the parcel_owners path interpolated. -/
def cityFieldMapping : String :=
  "tmppin \x27tmppin\x27 true false false 8 Double 0 11,First,#," ++ parcel_owners ++ ",-1,-1;" ++
  "Owner1 \x27Owner1\x27 true false false 30 Text 0 0,First,#," ++ parcel_owners ++ ",Owner1,0,30;" ++
  "MTGCode \x27MTGCode\x27 true true false 2 Short 0 5,First,#," ++ parcel_owners ++ ",MTGCode,-1,-1;" ++
  "PIN1 \x27PIN1\x27 true true false 11 Text 0 0,First,#," ++ parcel_owners ++ ",PIN1,0,11"

/-- Where clause of the medical-owners TableToTable_conversion call
(lines 284-291). -/
def medicalWhereSql : String :=
  "soa.SANGIS.ptinfo1.Owner1 LIKE \x27%MEMORIAL HEALTH SYSTEM%\x27 Or " ++
  "soa.SANGIS.ptinfo1.Owner1 LIKE \x27%SIU SCHOOL OF MEDICIN%\x27 Or " ++
  "soa.SANGIS.ptinfo1.Owner1 LIKE \x27%ST JOHNS%\x27 Or " ++
  "soa.SANGIS.ptinfo1.Owner1 LIKE \x27%SPRINGFIELD CLINIC%\x27 Or " ++
  "soa.SANGIS.ptinfo1.Owner1 LIKE \x27%Springfield Hospital%\x27 Or " ++
  "soa.SANGIS.ptinfo1.Owner2 LIKE \x27%MCFARLAND MENTAL HEALTH%\x27 Or " ++
  "soa.SANGIS.ptinfo1.Owner2 LIKE \x27%Public Health Facility%\x27 Or " ++
  "soa.SANGIS.ptinfo1.Owner1 LIKE \x27%Central Counties Health%\x27"

/-- Where clause of the schools-owners TableToTable_conversion call
(lines 297-306). -/
def schoolsWhereSql : String :=
  "soa.SANGIS.ptinfo1.Owner2 LIKE \x27%186%\x27 Or " ++
  "soa.SANGIS.ptinfo1.Owner1 LIKE \x27%186%\x27 Or " ++
  "soa.SANGIS.ptinfo1.Owner1 LIKE \x27%Sacred Heart%\x27 Or " ++
  "soa.SANGIS.ptinfo1.Owner2 LIKE \x27%Sacred Heart%\x27 Or " ++
  "soa.SANGIS.ptinfo1.Owner1 LIKE \x27%ST AGNES%\x27 Or " ++
  "soa.SANGIS.ptinfo1.Owner2 LIKE \x27%ST AGNES%\x27 Or " ++
  "soa.SANGIS.ptinfo1.Owner2 LIKE \x27%Christ the King%\x27 Or " ++
  "soa.SANGIS.ptinfo1.Owner1 LIKE \x27%Lincoln Land Community%\x27 Or " ++
  "soa.SANGIS.ptinfo1.Owner1 LIKE \x27%U of IL At%\x27 Or " ++
  "soa.SANGIS.ptinfo1.Owner1 LIKE \x27%Capital Area Career Center%\x27"

/-- Where clause of the state-owned-parcels TableToTable_conversion call
(lines 312-313). -/
def stateWhereSql : String :=
  "soa.SANGIS.ptinfo1.Owner1 = \x27STATE OF ILLINOIS\x27 And " ++
  "soa.SANGIS.ptinfo1.Owner2 LIKE \x27%SECRETARY%\x27"

/-- Where clause of the commercial-parcels TableToTable_conversion call
(line 318). -/
def commercialWhereSql : String :=
  "soa.SANGIS.ptinfo1.ClassCode IN (\x2750\x27, \x2760\x27)"

/-- Field-mapping string of the first Append_management call of
mowing_parcels, which appends the selected county-trustee parcels to MowZones
(lines 334-351).  Each of the raw f-string literals of the source is one
appended piece here, with the parcels_trustee path interpolated.  Note that the
piece ending in Owner1,0,30 has no trailing semicolon, and that the FacilityID
piece wraps the interpolated path in a leading P and a trailing e, exactly as
in the source. -/
def trusteeAppendMapping : String :=
  "ItemNo \x27ItemNo\x27 true true false 2 Short 0 0,First,#;" ++
  "Use_ \x27Use_\x27 true true false 50 Text 0 0,First,#;" ++
  "Description \x27Desc\x27 true true false 50 Text 0 0,First,#," ++ parcels_trustee ++ ",Owner1,0,30" ++
  "DateAdded \x27DateAdded\x27 true true false 8 Date 0 0,First,#;" ++
  "Misc \x27Misc\x27 true true false 50 Text 0 0,First,#;" ++
  "MowedBy \x27MowedBy\x27 true true false 50 Text 0 0,First,#;" ++
  "GlobalID \x27GlobalID\x27 false false true 38 GlobalID 0 0,First,#;" ++
  "Date1 \x27Date1\x27 true true false 8 Date 0 0,First,#;" ++
  "Date2 \x27Date2\x27 true true false 8 Date 0 0,First,#;" ++
  "Nbr1 \x27Nbr1\x27 true true false 8 Double 0 0,First,#;" ++
  "Nbr2 \x27nbr2\x27 true true false 8 Double 0 0,First,#;" ++
  "Test1 \x27Test1\x27 true true false 15 Text 0 0,First,#;" ++
  "Test2 \x27Test2\x27 true true false 25 Text 0 0,First,#;" ++
  "FacilityID \x27Facility Identifier\x27 true true false 50 Text 0 0,First,#,P" ++ parcels_trustee ++ "e,PIN,0,255;" ++
  "NAD83X \x27Easting(X)\x27 true true false 8 Double 0 0,First,#;" ++
  "NAD83Y \x27Northing(Y)\x27 true true false 8 Double 0 0,First,#;" ++
  "Status \x27Status\x27 true true false 50 Text 0 0,First,#;" ++
  "Lbl \x27Lbl\x27 true true false 50 Text 0 0,First,#"

/-- Field-mapping string of the second Append_management call of
mowing_parcels, which appends the selected surplus-property parcels to MowZones
(lines 356-373), with the parcels_surplus path interpolated.  Here the
Description piece ends in a semicolon followed by the letter D that the next
piece continues, so the concatenation is well-formed. -/
def surplusAppendMapping : String :=
  "ItemNo \x27ItemNo\x27 true true false 2 Short 0 0,First,#;" ++
  "Use_ \x27Use_\x27 true true false 50 Text 0 0,First,#," ++ parcels_surplus ++ ",Use,0,50;" ++
  "Description \x27Desc\x27 true true false 50 Text 0 0,First,#;D" ++
  "ateAdded \x27DateAdded\x27 true true false 8 Date 0 0,First,#;" ++
  "Misc \x27Misc\x27 true true false 50 Text 0 0,First,#;" ++
  "MowedBy \x27MowedBy\x27 true true false 50 Text 0 0,First,#;" ++
  "GlobalID \x27GlobalID\x27 false false true 38 GlobalID 0 0,First,#;" ++
  "Date1 \x27Date1\x27 true true false 8 Date 0 0,First,#;" ++
  "Date2 \x27Date2\x27 true true false 8 Date 0 0,First,#;" ++
  "Nbr1 \x27Nbr1\x27 true true false 8 Double 0 0,First,#;" ++
  "Nbr2 \x27nbr2\x27 true true false 8 Double 0 0,First,#;" ++
  "Test1 \x27Test1\x27 true true false 15 Text 0 0,First,#;" ++
  "Test2 \x27Test2\x27 true true false 25 Text 0 0,First,#;" ++
  "FacilityID \x27Facility Identifier\x27 true true false 50 Text 0 0,First,#," ++ parcels_surplus ++ ",PIN,0,255;" ++
  "NAD83X \x27Easting(X)\x27 true true false 8 Double 0 0,First,#;" ++
  "NAD83Y \x27Northing(Y)\x27 true true false 8 Double 0 0,First,#;" ++
  "Status \x27Status\x27 true true false 50 Text 0 0,First,#," ++ parcels_surplus ++ ",Status,0,50;" ++
  "Lbl \x27Lbl\x27 true true false 50 Text 0 0,First,#"

/-- One geoprocessing call of the pipeline, with the argument strings the
script passes.  Where the script omits an optional argument, the documented
arcpy default is recorded (SpatialJoin_analysis defaults join_operation to
JOIN_ONE_TO_ONE and join_type to KEEP_ALL; omitted field mappings and where
clauses default to the empty string).  Where the script passes the Result
object of AddJoin_management or SelectLayerBy*_management to a later call, the
underlying layer or dataset of that result is recorded as the input of the
later call. -/
inductive Op where
  | makeQueryLayer (conn layerName sql oidFields shapeType srid spatialRef
      spatialProps mValues zValues extent : String)
  | featureClassToFeatureClass (inFeatures outPath outName : String)
  | makeFeatureLayer (inFeatures layerName : String)
  | spatialJoin (target joinFeatures outFc joinOperation joinType fieldMapping : String)
  | selectLayerByLocation (inLayer overlapType selectFeatures : String)
  | tableToTable (inRows outPath outName whereClause fieldMapping : String)
  | addJoin (inLayer inField joinTable joinField joinType : String)
  | select (inFeatures outFc whereClause : String)
  | append (inputs target schemaType fieldMapping : String)
  | selectLayerByAttribute (inLayer selectionType whereClause : String)
  | calculateField (inTable field expression : String)
  | calculateFields (inTable expressionType : String) (fields : List (List String))
  | deleteData (dataset : String)
deriving DecidableEq

/-- Geoprocessing calls of the permits_to_parcels stage (lines 150-240), in
source order. -/
def permits_to_parcels_ops : List Op :=
  [Op.makeQueryLayer cityworks_view "Query_PermitsIssued" issuedPermitsSql "ObjectID" "POINT"
     "3436" issuedPermitsSpatialReference "DEFINE_SPATIAL_PROPERTIES" "DO_NOT_INCLUDE_M_VALUES"
     "DO_NOT_INCLUDE_Z_VALUES" "0 0 0 0",
   Op.featureClassToFeatureClass "Query_PermitsIssued" parcel_derivatives "Permits_Issued",
   Op.makeFeatureLayer permits_issued "Permits_Issued",
   Op.makeFeatureLayer qualified_census_tracts "CensusTracts",
   Op.spatialJoin "Permits_Issued" "CensusTracts" permits_CTQ "JOIN_ONE_TO_ONE" "KEEP_ALL"
     censusFieldMapping,
   Op.makeFeatureLayer permits_CTQ "Permits_CTQ",
   Op.makeFeatureLayer enterprise_zone "EnterpriseZone",
   Op.spatialJoin "Permits_CTQ" "EnterpriseZone" permits_CTQ_EZ "JOIN_ONE_TO_ONE" "KEEP_ALL" "",
   Op.makeFeatureLayer permits_CTQ_EZ "permits_CTQ_EZ",
   Op.makeFeatureLayer tif_districts "TIFDistricts",
   Op.spatialJoin "permits_CTQ_EZ" "TIFDistricts" permits_CTQ_EZ_TIF "JOIN_ONE_TO_ONE" "KEEP_ALL" "",
   Op.makeFeatureLayer permits_CTQ_EZ_TIF "permits_CTQ_EZ_TIF",
   Op.makeFeatureLayer admin_area_merged "AdministrativeAreaMerged",
   Op.spatialJoin "permits_CTQ_EZ_TIF" "AdministrativeAreaMerged" permits_CTQ_EZ_TIF_WARDS
     "JOIN_ONE_TO_ONE" "KEEP_ALL" "",
   Op.makeFeatureLayer permits_CTQ_EZ_TIF_WARDS "permits_CTQ_EZ_TIF_WARDS",
   Op.makeFeatureLayer census_tracts "CensusTracts",
   Op.spatialJoin "permits_CTQ_EZ_TIF_WARDS" "CensusTracts" permits_opportunity_zones
     "JOIN_ONE_TO_ONE" "KEEP_ALL" "",
   Op.featureClassToFeatureClass parcel_polygons parcel_derivatives "ParcelPolygons",
   Op.makeFeatureLayer parcels "ParcelPolygons",
   Op.selectLayerByLocation "ParcelPolygons" "INTERSECT" permits_issued,
   Op.makeFeatureLayer permits_opportunity_zones "Permits_OpportunityZones",
   Op.spatialJoin "ParcelPolygons" "Permits_OpportunityZones" parcels_permits_issued
     "JOIN_ONE_TO_MANY" "KEEP_ALL" ""]

/-- Geoprocessing calls of the nehemiah_parcels stage (lines 242-251). -/
def nehemiah_parcels_ops : List Op :=
  [Op.tableToTable parcel_owners parcel_derivatives "Parcels_Nehemiah_table" nehemiahWhereSql "",
   Op.addJoin parcel_polygons "PIN" parcels_nehemiah_table "PIN1" "KEEP_COMMON",
   Op.featureClassToFeatureClass parcel_polygons parcel_derivatives "Parcels_Nehemiah"]

/-- Geoprocessing calls of the tsp_parcels stage (lines 253-258). -/
def tsp_parcels_ops : List Op :=
  [Op.tableToTable parcel_owners parcel_derivatives "Parcels_TSP_table" tspWhereSql "",
   Op.addJoin parcel_polygons "PIN" parcels_tsp_table "PIN1" "KEEP_COMMON",
   Op.featureClassToFeatureClass parcel_polygons parcel_derivatives "Parcels_TSP"]

/-- Geoprocessing calls of the city_parcels stage (lines 260-273). -/
def city_parcels_ops : List Op :=
  [Op.tableToTable parcel_owners parcel_derivatives "Parcels_City_table" cityWhereSql
     cityFieldMapping,
   Op.addJoin parcel_polygons "PIN" parcels_city_table "PIN1" "KEEP_COMMON",
   Op.featureClassToFeatureClass parcel_polygons parcel_derivatives "Parcels_City",
   Op.select parcels_owner_city parcels_cwlp
     "SubjectParcels.MTGCode = 26 Or SubjectParcels.MTGCode = 66",
   Op.select parcels_owner_city parcels_cospw "SubjectParcels.MTGCode = 72",
   Op.select parcels_owner_city parcels_oped "SubjectParcels.MTGCode = 73",
   Op.select parcels_owner_city parcels_trustee
     "SubjectParcels.Owner1 = \x27SANGAMON COUNTY TRUSTEE\x27"]

/-- Geoprocessing call of the surplus_parcels stage (lines 275-277). -/
def surplus_parcels_ops : List Op :=
  [Op.featureClassToFeatureClass parcels_surplus parcel_derivatives "Parcels_SurplusProperty"]

/-- Geoprocessing calls of the other_subject_parcels stage (lines 279-320).
Note that the state-owned table is created under the name Parcels_State_Table
with a capital T while the join that consumes it uses the
parcels_owner_state_table path with a lower-case t, exactly as in the source;
file-geodatabase names are case-insensitive so the two strings name the same
dataset. -/
def other_subject_parcels_ops : List Op :=
  [Op.tableToTable parcel_owners parcel_derivatives "Parcels_Medical_table" medicalWhereSql "",
   Op.addJoin parcel_polygons "PIN" parcels_owner_medical_table "PIN1" "KEEP_COMMON",
   Op.featureClassToFeatureClass parcel_polygons parcel_derivatives "Parcels_Medical",
   Op.tableToTable parcel_owners parcel_derivatives "Parcels_Schools_table" schoolsWhereSql "",
   Op.addJoin parcel_polygons "PIN" parcels_owner_schools_table "PIN1" "KEEP_COMMON",
   Op.featureClassToFeatureClass parcel_polygons parcel_derivatives "Parcels_Schools",
   Op.tableToTable parcel_owners parcel_derivatives "Parcels_State_Table" stateWhereSql "",
   Op.addJoin parcel_polygons "PIN" parcels_owner_state_table "PIN1" "KEEP_COMMON",
   Op.featureClassToFeatureClass parcel_polygons parcel_derivatives "Parcels_State",
   Op.tableToTable parcel_owners parcel_derivatives "Parcels_Commercial_table"
     commercialWhereSql "",
   Op.addJoin parcel_polygons "PIN" parcels_commercial_table "PIN1" "KEEP_COMMON",
   Op.featureClassToFeatureClass parcel_polygons parcel_derivatives "Parcels_Commercial"]

/-- Geoprocessing call of the poi_parcels stage (lines 322-324). -/
def poi_parcels_ops : List Op :=
  [Op.spatialJoin parcel_polygons facility_site_point parcels_poi "JOIN_ONE_TO_ONE"
     "KEEP_COMMON" ""]

/-- Geoprocessing calls of the mowing_parcels stage (lines 326-381). -/
def mowing_parcels_ops : List Op :=
  [Op.featureClassToFeatureClass row parcel_derivatives "MowZones",
   Op.selectLayerByLocation parcels_trustee "HAVE_THEIR_CENTER_IN" city_limits,
   Op.append parcels_trustee mow_zones "NO_TEST" trusteeAppendMapping,
   Op.selectLayerByLocation parcels_surplus "HAVE_THEIR_CENTER_IN" city_limits,
   Op.append parcels_surplus mow_zones "NO_TEST" surplusAppendMapping,
   Op.calculateField mow_zones "MowedBy" "\x27PW\x27",
   Op.selectLayerByAttribute mow_zones "NEW_SELECTION"
     "Description LIKE \x27%SANGAMON COUNTY TRUSTEE%\x27",
   Op.calculateFields mow_zones "PYTHON3" [["Use_", "\x27PARCEL\x27"], ["MowedBy", "\x27CONT\x27"]],
   Op.selectLayerByAttribute mow_zones "NEW_SELECTION" "Use_ LIKE \x27%Vacant Lot%\x27",
   Op.calculateField mow_zones "Description" "\x27Vacant Lot\x27",
   Op.calculateFields mow_zones "PYTHON3" [["Description", "\x27Vacant Lot\x27"], ["MowedBy", "\x27CONT\x27"]]]

/-- Geoprocessing calls of the delete stage (lines 383-386), which loops over
to_delete and calls Delete_management on each entry. -/
def delete_stage_ops : List Op := to_delete.map Op.deleteData

/-- Dataset created by an operation, if any: the conversions and analyses that
write a new dataset report its path.  MakeQueryLayer and MakeFeatureLayer
create in-memory layers, not datasets; Append and the field calculations
modify an existing dataset; Delete removes one. -/
def outputOf : Op → Option String
  | Op.featureClassToFeatureClass _ outPath outName => some (pathJoin outPath outName)
  | Op.tableToTable _ outPath outName _ _ => some (pathJoin outPath outName)
  | Op.spatialJoin _ _ outFc _ _ _ => some outFc
  | Op.select _ outFc _ => some outFc
  | _ => none

/-- Datasets and layers an operation reads.  The cleanup Delete_management
call is not a data-consuming use, so it reports no inputs. -/
def inputsOf : Op → List String
  | Op.makeQueryLayer conn _ _ _ _ _ _ _ _ _ _ => [conn]
  | Op.featureClassToFeatureClass inFeatures _ _ => [inFeatures]
  | Op.makeFeatureLayer inFeatures _ => [inFeatures]
  | Op.spatialJoin target joinFeatures _ _ _ _ => [target, joinFeatures]
  | Op.selectLayerByLocation inLayer _ selectFeatures => [inLayer, selectFeatures]
  | Op.tableToTable inRows _ _ _ _ => [inRows]
  | Op.addJoin inLayer _ joinTable _ _ => [inLayer, joinTable]
  | Op.select inFeatures _ _ => [inFeatures]
  | Op.append inputs target _ _ => [inputs, target]
  | Op.selectLayerByAttribute inLayer _ _ => [inLayer]
  | Op.calculateField inTable _ _ => [inTable]
  | Op.calculateFields inTable _ _ => [inTable]
  | Op.deleteData _ => []

/-- Dataset removed by an operation, if any. -/
def deletedTarget : Op → Option String
  | Op.deleteData dataset => some dataset
  | _ => none

/-- Whether an operation consumes the dataset `d` as an input
(case-insensitive, following file-geodatabase name semantics). -/
def consumes (op : Op) (d : String) : Bool :=
  (inputsOf op).any (fun i => sameDataset i d)

/-- Whether an operation creates the dataset `d` (case-insensitive). -/
def creates (op : Op) (d : String) : Bool :=
  match outputOf op with
  | some o => sameDataset o d
  | none => false

/-- A dataset is an intermediate artifact of an operation sequence when some
operation creates it and a later non-cleanup operation consumes it as an
input. -/
def isIntermediate : List Op → String → Bool
  | [], _ => false
  | op :: rest, d =>
      (creates op d && rest.any (fun o2 => consumes o2 d)) || isIntermediate rest d


/- Field-mapping analysis for the Append_management calls.  An arcpy
field-mapping string is a semicolon-separated list of field mappings; a mapping
that pulls its value from a source table contains the token First,#, followed
by the source-table path, a comma, and the source field. -/

/-- Semicolon-separated chunks of a field-mapping string. -/
def fieldMappingChunks (s : String) : List (List Char) :=
  splitOnChar semicolonChar s.data

/-- Source-table references found at each position of a character list: for
each occurrence of the pattern, the characters that follow it up to the next
comma. -/
def sourceRefsAux (pat : List Char) : List Char → List (List Char)
  | [] => []
  | c :: cs =>
      (if listStarts pat (c :: cs) then
        [((c :: cs).drop pat.length).takeWhile (fun d => d != commaChar)]
      else []) ++ sourceRefsAux pat cs

/-- Source-table references of a field-mapping string: for each occurrence of
the token First,#, followed by a comma, the characters up to the comma after
the source path. -/
def sourceRefs (s : String) : List String :=
  (sourceRefsAux "First,#,".data s.data).map (fun l => String.mk l)

/-- Well-formedness of a field-mapping string whose only source table should be
`srcTable`: every semicolon-separated chunk holds exactly one mapping (exactly
one First,# token), and every source-table reference is exactly `srcTable`. -/
def wellFormedFieldMapping (s srcTable : String) : Bool :=
  (fieldMappingChunks s).all (fun c => countOccurs "First,#".data c == 1) &&
  (sourceRefs s).all (fun src => src == srcTable)

/- Control-flow model of derived_parcels (lines 64-452): the logging prologue,
the try block that runs the nine stages with a log line before and after each,
the three except clauses, and the finally block. -/

/-- Exception classes of the model.  The first eight are the classes named by
the three except clauses of derived_parcels (lines 426-445).  Python
exceptions are an open set, so the model also carries two representative
classes no clause names: AttributeError, and RuntimeError (which arcpy raises
for licensing and environment errors). -/
inductive Exc where
  | valueError
  | ioError
  | keyError
  | nameError
  | indexError
  | typeError
  | unboundLocalError
  | executeError
  | attributeError
  | runtimeError
deriving DecidableEq

/-- Display name of an exception class. -/
def excName : Exc → String
  | Exc.valueError => "ValueError"
  | Exc.ioError => "IOError"
  | Exc.keyError => "KeyError"
  | Exc.nameError => "NameError"
  | Exc.indexError => "IndexError"
  | Exc.typeError => "TypeError"
  | Exc.unboundLocalError => "UnboundLocalError"
  | Exc.executeError => "ExecuteError"
  | Exc.attributeError => "AttributeError"
  | Exc.runtimeError => "RuntimeError"

/-- Exceptions caught by the first except clause, except ValueError (line 426). -/
def handledByValueClause (e : Exc) : Bool := e == Exc.valueError

/-- Exceptions caught by the second except clause, the tuple
(IOError, KeyError, NameError, IndexError, TypeError, UnboundLocalError)
(line 434). -/
def handledByTupleClause (e : Exc) : Bool :=
  [Exc.ioError, Exc.keyError, Exc.nameError, Exc.indexError, Exc.typeError,
   Exc.unboundLocalError].contains e

/-- Exceptions caught by the third except clause, except arcpy.ExecuteError
(line 441). -/
def handledByExecuteClause (e : Exc) : Bool := e == Exc.executeError

/-- Whether some except clause of derived_parcels catches the exception. -/
def handled (e : Exc) : Bool :=
  handledByValueClause e || handledByTupleClause e || handledByExecuteClause e

/-- Observable events of a run: a geoprocessing call, a log line at info or
error level, console output from a print fallback, and the logging.shutdown
call. -/
inductive Event where
  | gpOp (op : Op)
  | logInfo (msg : String)
  | logError (msg : String)
  | consoleOut (msg : String)
  | logShutdown
deriving DecidableEq

/-- One statement of the try block: a logger.info call or a geoprocessing
call. -/
inductive TryStep where
  | info (msg : String)
  | op (o : Op)
deriving DecidableEq

/-- Statements of one pipeline stage inside the try block: the started log
line, the geoprocessing calls of the stage function, and the completed log
line. -/
def stageSteps (startMsg : String) (ops : List Op) (endMsg : String) : List TryStep :=
  TryStep.info startMsg :: (ops.map TryStep.op ++ [TryStep.info endMsg])

/-- The try block of derived_parcels (lines 388-424): the nine stages in
source order, each bracketed by its exact log messages (several of the source
messages have irregular spacing or drop the trailing dashes; they are
transcribed as written). -/
def tryBody : List TryStep :=
  stageSteps "\x2d\x2d\x2d Permits to Parcels Started \x2d\x2d\x2d" permits_to_parcels_ops
    "\x2d\x2d\x2d Permits to Parcels Completed \x2d\x2d\x2d" ++
  stageSteps "\x2d\x2d\x2d Nehemiah Parcels Started \x2d\x2d\x2d" nehemiah_parcels_ops
    "\x2d\x2d\x2d Nehemiah Parcels Completed \x2d\x2d\x2d" ++
  stageSteps "\x2d\x2d\x2d TSP Parcels Started \x2d\x2d\x2d" tsp_parcels_ops
    "\x2d\x2d\x2d TSP Parcels Completed \x2d\x2d\x2d" ++
  stageSteps "\x2d\x2d\x2d City Parcels Started \x2d\x2d\x2d" city_parcels_ops
    "\x2d\x2d\x2d City Parcels Completed \x2d\x2d\x2d" ++
  stageSteps "\x2d\x2d\x2d Surplus Parcels Started \x2d\x2d\x2d" surplus_parcels_ops
    "\x2d\x2d\x2d Surplus Parcels Completed \x2d\x2d\x2d" ++
  stageSteps "\x2d\x2d\x2d Other Subject Parcels Started\x2d\x2d\x2d" other_subject_parcels_ops
    "\x2d\x2d\x2d Other Subject Parcels Complete" ++
  stageSteps "\x2d\x2d\x2d Points of Interest Parcels Started \x2d\x2d\x2d" poi_parcels_ops
    "\x2d\x2d\x2d Points of Interest Parcels Complete \x2d\x2d\x2d" ++
  stageSteps "\x2d\x2d\x2d Mowing Parcels Started \x2d\x2d\x2d" mowing_parcels_ops
    "\x2d\x2d\x2d Mowing Parcels Completed \x2d\x2d\x2d" ++
  stageSteps "\x2d\x2d\x2d Data Cleanup Started" delete_stage_ops
    "\x2d\x2d\x2d Data Cleanup Completed"

/-- Geoprocessing call of one try-block statement, if it is one. -/
def stepOp : TryStep → Option Op
  | TryStep.op o => some o
  | TryStep.info _ => none

/-- Geoprocessing calls of a statement list, in order. -/
def stepsOps (l : List TryStep) : List Op := l.filterMap stepOp

/-- All geoprocessing calls a complete run issues, in order. -/
def allOps : List Op := stepsOps tryBody

/-- Datasets a complete run creates, in order of creation. -/
def createdDatasets : List String := allOps.filterMap outputOf

/-- A failure environment: either no call raises, or the geoprocessing call
with the given index in the op stream raises an exception of the given class.
Log calls are assumed not to raise, matching the source, where the logger is
constructed before the try block. -/
def FailureEnv : Type := Option (Nat × Exc)

/-- Execute the statements of the try block under a failure environment,
returning the emitted events and the exception, if any, that escapes the
block.  A raising call emits no event of its own and abandons the rest of the
block. -/
def runSteps : List TryStep → FailureEnv → List Event × Option Exc
  | [], _ => ([], none)
  | TryStep.info m :: rest, fa =>
      let r := runSteps rest fa
      (Event.logInfo m :: r.1, r.2)
  | TryStep.op o :: rest, fa =>
      match fa with
      | none =>
          let r := runSteps rest none
          (Event.gpOp o :: r.1, r.2)
      | some (0, e) => ([], some e)
      | some (Nat.succ n, e) =>
          let r := runSteps rest (some (n, e))
          (Event.gpOp o :: r.1, r.2)

/-- Local names assigned in derived_parcels before the try block (lines
67-71), in assignment order.  The name logger is assigned last, before any
statement of the try block runs. -/
def prologueNames : List String :=
  ["script_folder", "script_name_no_ext", "log_folder", "log_file", "logger"]

/-- Whether the name logger is bound in the environment: the guarded logger
calls inside the except and finally clauses raise NameError exactly when it is
not. -/
def loggerDefined (env : List String) : Bool := env.contains "logger"

/-- Message logged by the ValueError clause, modelling the f-string with the
traceback line number and the exception text; those are runtime data,
abstracted here. -/
def valueHandlerText (e : Exc) : String :=
  "Line: <line> \x2d\x2d\x2d " ++ excName e

/-- Message logged by the tuple clause: the formatted traceback, runtime data
abstracted here. -/
def tracebackText : String := "<formatted traceback>"

/-- Message logged by the ExecuteError clause: the arcpy severity-2 messages,
runtime data abstracted here. -/
def arcpyMessagesText : String := "<arcpy severity 2 messages>"

/-- Events emitted by the except clauses of derived_parcels (lines 426-445)
for a raised exception: the first clause whose class list covers the exception
runs; it logs the error through the logger when that name is bound and falls
back to print otherwise; an exception no clause covers produces no handler
event. -/
def handlerEvents (env : List String) (e : Exc) : List Event :=
  if handledByValueClause e then
    if loggerDefined env then [Event.logError (valueHandlerText e)]
    else [Event.consoleOut (valueHandlerText e)]
  else if handledByTupleClause e then
    if loggerDefined env then [Event.logError tracebackText]
    else [Event.consoleOut tracebackText]
  else if handledByExecuteClause e then
    if loggerDefined env then [Event.logError arcpyMessagesText]
    else [Event.consoleOut arcpyMessagesText]
  else []

/-- Events of the handler phase: nothing when the try block completed. -/
def handlerBlock (env : List String) : Option Exc → List Event
  | none => []
  | some e => handlerEvents env e

/-- Log message of the start of a run (line 72). -/
def startedMsg : String := "\x2d\x2d\x2d Script Execution Started \x2d\x2d\x2d"

/-- Log message of the finally block (line 449). -/
def completedMsg : String := "\x2d\x2d\x2d Script Execution Completed \x2d\x2d\x2d"

/-- Events emitted by the finally block (lines 447-452): the completion log
line and logging.shutdown when the logger name is bound; when it is not, the
inner NameError handler passes and neither action runs. -/
def finallyEvents (env : List String) : List Event :=
  if loggerDefined env then [Event.logInfo completedMsg, Event.logShutdown]
  else []

/-- Exception that escapes derived_parcels: a caught exception is swallowed
after its clause runs; an exception no clause covers propagates to the caller
(after the finally block runs). -/
def propagated : Option Exc → Option Exc
  | none => none
  | some e => if handled e then none else some e

/-- Full model of one execution of derived_parcels under a failure
environment: the start log line, the try block, the except clauses, and the
finally block, paired with the exception that propagates to the caller, if
any. -/
def derived_parcels (failAt : FailureEnv) : List Event × Option Exc :=
  let r := runSteps tryBody failAt
  (Event.logInfo startedMsg ::
     (r.1 ++ handlerBlock prologueNames r.2 ++ finallyEvents prologueNames),
   propagated r.2)

/-- Exception raised inside the try block under a failure environment, if
any. -/
def raisedExc (failAt : FailureEnv) : Option Exc := (runSteps tryBody failAt).2

/-- Geoprocessing call recorded by an event, if any. -/
def eventOp : Event → Option Op
  | Event.gpOp o => some o
  | _ => none

/-- Whether an event is an error-level log line. -/
def isErrorEvent : Event → Bool
  | Event.logError _ => true
  | _ => false

/-- Whether an event is a print-fallback console output. -/
def isConsoleEvent : Event → Bool
  | Event.consoleOut _ => true
  | _ => false

/-- Geoprocessing calls recorded in an event trace, in order. -/
def opsOfTrace (evs : List Event) : List Op := evs.filterMap eventOp

/-- Number of error-level log lines in an event trace. -/
def errorCount (evs : List Event) : Nat := evs.countP isErrorEvent

/-- Number of print-fallback console outputs in an event trace. -/
def consoleCount (evs : List Event) : Nat := evs.countP isConsoleEvent

/- Denotational model of the vendor operations the data-content claims need.
These model documented arcpy semantics: TableToTable_conversion with a where
clause copies exactly the rows satisfying the clause; AddJoin_management with
KEEP_COMMON keeps exactly the input features with at least one join match;
SelectLayerByLocation with HAVE_THEIR_CENTER_IN selects the features whose
center lies in the selecting features; Append_management adds the source rows
to the target. -/

/-- Row of the parcel-owners table soa.SANGIS.ptinfo1, restricted to the
columns the Nehemiah stage touches: the first owner name and the parcel
identification number. -/
structure OwnerRow where
  Owner1 : String
  PIN1 : String
deriving DecidableEq

/-- Parcel polygon of soa.SANGIS.Parcel_Poly, restricted to its parcel
identification number. -/
structure ParcelRow where
  PIN : String
deriving DecidableEq

/-- SQL LIKE with a pattern enclosed in percent wildcards: the pattern occurs
somewhere in the value. -/
def likeAnywhere (value pat : String) : Bool := occursIn pat value

/-- Where clause of the Nehemiah TableToTable_conversion call (lines 246-249)
as a predicate: Owner1 matches one of the four NEHEMIAH LIKE patterns. -/
def nehemiahOwnerMatch (r : OwnerRow) : Bool :=
  likeAnywhere r.Owner1 "NEHEMIAH AFFORDABLE HOUSING II" ||
  likeAnywhere r.Owner1 "NEHEMIAH AFFORDABLE HOUSING LP" ||
  likeAnywhere r.Owner1 "NEHEMIAH EXPANSION" ||
  likeAnywhere r.Owner1 "NEHEMIAH PSJ LP"

/-- Model of TableToTable_conversion with a where clause: the output table
receives the rows satisfying the clause. -/
def tableToTableRows (rows : List OwnerRow) (w : OwnerRow → Bool) : List OwnerRow :=
  rows.filter w

/-- Rows of Parcels_Nehemiah_table: the parcel-owners rows whose Owner1
matches one of the four NEHEMIAH patterns (line 245). -/
def nehemiahTableRows (owners : List OwnerRow) : List OwnerRow :=
  tableToTableRows owners nehemiahOwnerMatch

/-- Model of AddJoin_management on PIN = PIN1 with KEEP_COMMON followed by
FeatureClassToFeatureClass_conversion: the output keeps exactly the parcel
polygons whose PIN appears as PIN1 of some row of the joined table.  The
joined attribute columns are not needed by the claims and are dropped. -/
def addJoinKeepCommon (polys : List ParcelRow) (tbl : List OwnerRow) : List ParcelRow :=
  polys.filter fun p => tbl.any fun r => r.PIN1 == p.PIN

/-- Features of Parcels_Nehemiah: parcel polygons joined KEEP_COMMON to
Parcels_Nehemiah_table on PIN = PIN1 (lines 250-251). -/
def nehemiahJoinRows (polys : List ParcelRow) (owners : List OwnerRow) : List ParcelRow :=
  addJoinKeepCommon polys (nehemiahTableRows owners)

/-- Feature of a mowing-relevant feature class, reduced to its parcel
identification number. -/
structure MowFeature where
  pin : String
deriving DecidableEq

/-- Model of SelectLayerByLocation_management with HAVE_THEIR_CENTER_IN: keeps
the features whose center lies in the selecting features, abstracted as the
predicate `centerInCity`. -/
def selectHaveCenterIn (feats : List MowFeature) (centerInCity : MowFeature → Bool) :
    List MowFeature :=
  feats.filter centerInCity

/-- Model of Append_management: the target rows followed by the appended
source rows. -/
def appendFeatures (target source : List MowFeature) : List MowFeature :=
  target ++ source

/-- Features of MowZones after the copy and the two appends of mowing_parcels
(lines 329-355): the ROW features, then the county-trustee parcels whose
center lies in the city limits, then the surplus-property parcels whose center
lies in the city limits. -/
def mowZonesFeatures (rowFeats trusteeFeats surplusFeats : List MowFeature)
    (centerInCity : MowFeature → Bool) : List MowFeature :=
  appendFeatures
    (appendFeatures rowFeats (selectHaveCenterIn trusteeFeats centerInCity))
    (selectHaveCenterIn surplusFeats centerInCity)


/-- Owner row used to instantiate the Nehemiah-extract theorem on concrete
data. -/
def probeOwnerRow : OwnerRow := { Owner1 := "NEHEMIAH EXPANSION LLC", PIN1 := "11-22.0-333-444" }

/-- Parcel polygon used to instantiate the Nehemiah-extract theorem on
concrete data. -/
def probeParcelRow : ParcelRow := { PIN := "11-22.0-333-444" }

/-- Concrete center-in-city predicate used to instantiate the MowZones theorem
on concrete data. -/
def probeCenterInCity : MowFeature → Bool := fun f => f.pin == "T1"

/- General lemmas about the run model. -/

/-- Without a failure, the try block emits every statement: its geoprocessing
calls are the full op stream and no exception escapes. -/
theorem runSteps_none_spec (l : List TryStep) :
    opsOfTrace (runSteps l none).1 = stepsOps l ∧ (runSteps l none).2 = none := by
  induction l with
  | nil => exact ⟨rfl, rfl⟩
  | cons s rest ih =>
      cases s with
      | info m =>
          refine ⟨?_, ?_⟩
          · simpa [runSteps, opsOfTrace, stepsOps, eventOp, stepOp] using ih.1
          · simpa [runSteps] using ih.2
      | op o =>
          refine ⟨?_, ?_⟩
          · simpa [runSteps, opsOfTrace, stepsOps, eventOp, stepOp] using ih.1
          · simpa [runSteps] using ih.2

/-- When the geoprocessing call of index `n` raises, the try block emits
exactly the first `n` geoprocessing calls, and the exception escapes the block
exactly when the op stream is long enough to reach index `n`. -/
theorem runSteps_fail (l : List TryStep) (n : Nat) (e : Exc) :
    opsOfTrace (runSteps l (some (n, e))).1 = (stepsOps l).take n ∧
    (runSteps l (some (n, e))).2 = (if n < (stepsOps l).length then some e else none) := by
  induction l generalizing n with
  | nil =>
      refine ⟨?_, ?_⟩
      · simp [runSteps, opsOfTrace, stepsOps]
      · simp [runSteps, stepsOps]
  | cons s rest ih =>
      cases s with
      | info m =>
          refine ⟨?_, ?_⟩
          · simpa [runSteps, opsOfTrace, stepsOps, eventOp, stepOp] using (ih n).1
          · simpa [runSteps, stepsOps, stepOp] using (ih n).2
      | op o =>
          cases n with
          | zero =>
              refine ⟨?_, ?_⟩
              · simp [runSteps, opsOfTrace, stepsOps]
              · simp [runSteps, stepsOps, stepOp]
          | succ n =>
              refine ⟨?_, ?_⟩
              · simpa [runSteps, opsOfTrace, stepsOps, eventOp, stepOp] using (ih n).1
              · simpa [runSteps, stepsOps, stepOp, Nat.succ_lt_succ_iff] using (ih n).2

/-- The try block itself never emits an error-level log line. -/
theorem runSteps_errorCount (l : List TryStep) (fa : FailureEnv) :
    errorCount (runSteps l fa).1 = 0 := by
  induction l generalizing fa with
  | nil => rfl
  | cons s rest ih =>
      cases s with
      | info m => simpa [runSteps, errorCount, isErrorEvent, List.countP_cons] using ih fa
      | op o =>
          cases fa with
          | none => simpa [runSteps, errorCount, isErrorEvent, List.countP_cons] using ih none
          | some p =>
              obtain ⟨n, e⟩ := p
              cases n with
              | zero => rfl
              | succ n =>
                  simpa [runSteps, errorCount, isErrorEvent, List.countP_cons] using
                    ih (some (n, e))

/-- The try block itself never emits console output. -/
theorem runSteps_consoleCount (l : List TryStep) (fa : FailureEnv) :
    consoleCount (runSteps l fa).1 = 0 := by
  induction l generalizing fa with
  | nil => rfl
  | cons s rest ih =>
      cases s with
      | info m => simpa [runSteps, consoleCount, isConsoleEvent, List.countP_cons] using ih fa
      | op o =>
          cases fa with
          | none => simpa [runSteps, consoleCount, isConsoleEvent, List.countP_cons] using ih none
          | some p =>
              obtain ⟨n, e⟩ := p
              cases n with
              | zero => rfl
              | succ n =>
                  simpa [runSteps, consoleCount, isConsoleEvent, List.countP_cons] using
                    ih (some (n, e))

/-- Decomposition of the event trace of derived_parcels. -/
theorem derived_parcels_trace (fa : FailureEnv) :
    (derived_parcels fa).1 =
      Event.logInfo startedMsg ::
        ((runSteps tryBody fa).1 ++ handlerBlock prologueNames (raisedExc fa) ++
         finallyEvents prologueNames) := rfl

/-- The exception escaping derived_parcels is the raised exception filtered
through the except clauses. -/
theorem derived_parcels_exc (fa : FailureEnv) :
    (derived_parcels fa).2 = propagated (raisedExc fa) := rfl

/-- Error-count arithmetic over trace concatenation. -/
theorem errorCount_append (a b : List Event) :
    errorCount (a ++ b) = errorCount a + errorCount b := List.countP_append _ a b

/-- An info log line contributes no error count. -/
theorem errorCount_cons_info (m : String) (l : List Event) :
    errorCount (Event.logInfo m :: l) = errorCount l := by
  simp [errorCount, isErrorEvent, List.countP_cons]

/-- Console-count arithmetic over trace concatenation. -/
theorem consoleCount_append (a b : List Event) :
    consoleCount (a ++ b) = consoleCount a + consoleCount b := List.countP_append _ a b

/-- An info log line contributes no console count. -/
theorem consoleCount_cons_info (m : String) (l : List Event) :
    consoleCount (Event.logInfo m :: l) = consoleCount l := by
  simp [consoleCount, isConsoleEvent, List.countP_cons]

/-- Op extraction over trace concatenation. -/
theorem opsOfTrace_append (a b : List Event) :
    opsOfTrace (a ++ b) = opsOfTrace a ++ opsOfTrace b := List.filterMap_append a b _

/-- An info log line records no geoprocessing call. -/
theorem opsOfTrace_cons_info (m : String) (l : List Event) :
    opsOfTrace (Event.logInfo m :: l) = opsOfTrace l := by
  simp [opsOfTrace, eventOp]

/-- The finally block of a run with the logger bound emits the completion line
and the shutdown, nothing else. -/
theorem finallyEvents_eval :
    finallyEvents prologueNames = [Event.logInfo completedMsg, Event.logShutdown] := rfl

/-- The handler phase records no geoprocessing call. -/
theorem handlerBlock_ops (x : Option Exc) :
    opsOfTrace (handlerBlock prologueNames x) = [] := by
  cases x with
  | none => rfl
  | some e => cases e <;> rfl

/-- The handler phase emits no console output, because the logger name is
bound. -/
theorem handlerBlock_consoleCount (x : Option Exc) :
    consoleCount (handlerBlock prologueNames x) = 0 := by
  cases x with
  | none => rfl
  | some e => cases e <;> rfl

/-- A caught exception is logged exactly once by its except clause. -/
theorem handlerEvents_errorCount (e : Exc) (h : handled e = true) :
    errorCount (handlerEvents prologueNames e) = 1 := by
  cases e <;> revert h <;> decide

/-- The full op stream splits into the nine stages in source order. -/
theorem allOps_concat :
    allOps =
      permits_to_parcels_ops ++ nehemiah_parcels_ops ++ tsp_parcels_ops ++ city_parcels_ops ++
      surplus_parcels_ops ++ other_subject_parcels_ops ++ poi_parcels_ops ++
      mowing_parcels_ops ++ delete_stage_ops := by rfl

/-- A run whose try block raises no exception issues the full op stream. -/
theorem runSteps_ops_of_no_exc (fa : FailureEnv) (h : raisedExc fa = none) :
    opsOfTrace (runSteps tryBody fa).1 = allOps := by
  cases fa with
  | none => exact (runSteps_none_spec tryBody).1
  | some p =>
      obtain ⟨n, e⟩ := p
      have hf := runSteps_fail tryBody n e
      have hnl : ¬ n < (stepsOps tryBody).length := by
        intro hlt
        have h2 := h
        rw [raisedExc, hf.2, if_pos hlt] at h2
        exact Option.noConfusion h2
      rw [hf.1]
      exact List.take_of_length_le (Nat.le_of_not_lt hnl)


/-- Errors of a caught class are logged exactly once by the matching except
clause. -/
theorem handlerBlock_errorCount_some (e : Exc) (h : handled e = true) :
    errorCount (handlerBlock prologueNames (some e)) = 1 :=
  handlerEvents_errorCount e h

/- Claim theorems. -/

/-- C1, counterexample: the exception-handler set of derived_parcels is not a
blanket.  A RuntimeError raised by the very first geoprocessing call is caught
by no except clause: no error is logged, nothing is printed, and the exception
propagates out of derived_parcels. -/
theorem c1_blanket_handler_refuted :
    (derived_parcels (some (0, Exc.runtimeError))).2 = some Exc.runtimeError ∧
    errorCount (derived_parcels (some (0, Exc.runtimeError))).1 = 0 ∧
    consoleCount (derived_parcels (some (0, Exc.runtimeError))).1 = 0 := by
  decide

/-- C1, amended: for every exception of one of the classes the three except
clauses name (ValueError; IOError, KeyError, NameError, IndexError, TypeError,
UnboundLocalError; arcpy.ExecuteError) raised by any pipeline step inside
derived_parcels, the exception is caught by one of the handlers, an error
message is logged exactly once, and the exception does not propagate out of
derived_parcels; an exception of any other class propagates. -/
theorem c1_handled_exceptions_logged (n : Nat) (e : Exc)
    (hn : n < allOps.length) (he : handled e = true) :
    (derived_parcels (some (n, e))).2 = none ∧
    errorCount (derived_parcels (some (n, e))).1 = 1 := by
  have hexc : raisedExc (some (n, e)) = some e := by
    rw [raisedExc, (runSteps_fail tryBody n e).2]
    exact if_pos hn
  refine ⟨?_, ?_⟩
  · rw [derived_parcels_exc, hexc]
    simp [propagated, he]
  · rw [derived_parcels_trace, errorCount_cons_info, errorCount_append, errorCount_append,
        runSteps_errorCount, hexc, handlerBlock_errorCount_some e he, finallyEvents_eval]
    rfl

/-- C1, witness: an ExecuteError raised by the geoprocessing call of index 3
is caught, logged once, and swallowed. -/
theorem c1_handled_exceptions_logged_witness :
    (derived_parcels (some (3, Exc.executeError))).2 = none ∧
    errorCount (derived_parcels (some (3, Exc.executeError))).1 = 1 :=
  c1_handled_exceptions_logged 3 Exc.executeError (by decide) (by decide)

/-- C2: when a pipeline step raises an exception the handlers catch, the
geoprocessing calls issued are exactly the ones before the raising call, so no
later pipeline step (including the cleanup delete stage at the end of the op
stream) executes; the error is logged exactly once; and derived_parcels
returns without re-raising. -/
theorem c2_caught_failure_aborts_run (n : Nat) (e : Exc)
    (hn : n < allOps.length) (he : handled e = true) :
    opsOfTrace (derived_parcels (some (n, e))).1 = allOps.take n ∧
    errorCount (derived_parcels (some (n, e))).1 = 1 ∧
    (derived_parcels (some (n, e))).2 = none := by
  have hexc : raisedExc (some (n, e)) = some e := by
    rw [raisedExc, (runSteps_fail tryBody n e).2]
    exact if_pos hn
  refine ⟨?_, ?_, ?_⟩
  · show opsOfTrace (derived_parcels (some (n, e))).1 = (stepsOps tryBody).take n
    rw [derived_parcels_trace, opsOfTrace_cons_info, opsOfTrace_append, opsOfTrace_append,
        hexc, handlerBlock_ops, (runSteps_fail tryBody n e).1, finallyEvents_eval]
    simp [opsOfTrace, eventOp]
  · rw [derived_parcels_trace, errorCount_cons_info, errorCount_append, errorCount_append,
        runSteps_errorCount, hexc, handlerBlock_errorCount_some e he, finallyEvents_eval]
    rfl
  · rw [derived_parcels_exc, hexc]
    simp [propagated, he]

/-- C2, witness: an IOError raised by the first geoprocessing call aborts the
run before any call is issued, is logged once, and is not re-raised. -/
theorem c2_caught_failure_aborts_run_witness :
    opsOfTrace (derived_parcels (some (0, Exc.ioError))).1 = allOps.take 0 ∧
    errorCount (derived_parcels (some (0, Exc.ioError))).1 = 1 ∧
    (derived_parcels (some (0, Exc.ioError))).2 = none :=
  c2_caught_failure_aborts_run 0 Exc.ioError (by decide) (by decide)

/-- C3, counterexample: the run does not delete every intermediate dataset it
creates.  Permits_Issued and Permits_OpportunityZones are both created during
the run and consumed as inputs by later non-cleanup steps, yet neither is in
the to_delete list, and the Delete_management calls of the run target exactly
the to_delete list. -/
theorem c3_not_every_intermediate_deleted :
    isIntermediate allOps permits_issued = true ∧
    isIntermediate allOps permits_opportunity_zones = true ∧
    permits_issued ∈ createdDatasets ∧
    permits_opportunity_zones ∈ createdDatasets ∧
    permits_issued ∉ to_delete ∧
    permits_opportunity_zones ∉ to_delete ∧
    allOps.filterMap deletedTarget = to_delete := by
  decide

/-- C3, amended: on a run in which every pipeline step completes, the delete
stage is the last pipeline action, and it calls Delete_management exactly once
on each of the thirteen datasets of the to_delete list, each of which was
created earlier in the run; however, it does not delete every intermediate
dataset the run created (Permits_Issued and Permits_OpportunityZones remain).
The delete stage itself creates nothing. -/
theorem c3_cleanup_last_and_only_created :
    allOps =
      (permits_to_parcels_ops ++ nehemiah_parcels_ops ++ tsp_parcels_ops ++ city_parcels_ops ++
       surplus_parcels_ops ++ other_subject_parcels_ops ++ poi_parcels_ops ++
       mowing_parcels_ops) ++ delete_stage_ops ∧
    delete_stage_ops = to_delete.map Op.deleteData ∧
    to_delete.Nodup ∧
    to_delete.all (fun d => createdDatasets.any (fun c => sameDataset c d)) = true ∧
    delete_stage_ops.filterMap outputOf = [] := by
  refine ⟨by rfl, rfl, by decide, by decide, by rfl⟩

/-- C4: the pipeline is a fixed, linear sequence without branching.  On every
run whose try block raises no exception, the geoprocessing calls issued are
exactly the concatenation of the nine stage op-lists, in the order
permits_to_parcels, nehemiah_parcels, tsp_parcels, city_parcels,
surplus_parcels, other_subject_parcels, poi_parcels, mowing_parcels, delete,
each stage appearing exactly once, and within each stage no geoprocessing call
(an operation together with its arguments) is issued more than once. -/
theorem c4_fixed_linear_pipeline (fa : FailureEnv) (h : raisedExc fa = none) :
    opsOfTrace (derived_parcels fa).1 =
      permits_to_parcels_ops ++ nehemiah_parcels_ops ++ tsp_parcels_ops ++ city_parcels_ops ++
      surplus_parcels_ops ++ other_subject_parcels_ops ++ poi_parcels_ops ++
      mowing_parcels_ops ++ delete_stage_ops ∧
    permits_to_parcels_ops.Nodup ∧ nehemiah_parcels_ops.Nodup ∧ tsp_parcels_ops.Nodup ∧
    city_parcels_ops.Nodup ∧ surplus_parcels_ops.Nodup ∧ other_subject_parcels_ops.Nodup ∧
    poi_parcels_ops.Nodup ∧ mowing_parcels_ops.Nodup ∧ delete_stage_ops.Nodup := by
  refine ⟨?_, by decide, by decide, by decide, by decide, by decide, by decide, by decide,
    by decide, by decide⟩
  rw [derived_parcels_trace, opsOfTrace_cons_info, opsOfTrace_append, opsOfTrace_append,
      h, handlerBlock_ops, runSteps_ops_of_no_exc fa h, allOps_concat, finallyEvents_eval]
  simp [opsOfTrace, eventOp]

/-- C4, witness: the failure-free run issues exactly the nine stages in order,
and each stage issues no geoprocessing call twice. -/
theorem c4_fixed_linear_pipeline_witness :
    opsOfTrace (derived_parcels none).1 =
      permits_to_parcels_ops ++ nehemiah_parcels_ops ++ tsp_parcels_ops ++ city_parcels_ops ++
      surplus_parcels_ops ++ other_subject_parcels_ops ++ poi_parcels_ops ++
      mowing_parcels_ops ++ delete_stage_ops ∧
    permits_to_parcels_ops.Nodup ∧ nehemiah_parcels_ops.Nodup ∧ tsp_parcels_ops.Nodup ∧
    city_parcels_ops.Nodup ∧ surplus_parcels_ops.Nodup ∧ other_subject_parcels_ops.Nodup ∧
    poi_parcels_ops.Nodup ∧ mowing_parcels_ops.Nodup ∧ delete_stage_ops.Nodup :=
  c4_fixed_linear_pipeline none (by rfl)

/-- C5: the logging harness brackets every run.  The first event of every run
is the Script Execution Started log line, before any pipeline step; and on
every run, whether it completes, fails with a caught exception, or fails with
an uncaught exception, the trace ends with the finally-block actions: the
Script Execution Completed log line followed by logging.shutdown. -/
theorem c5_logging_brackets_run (fa : FailureEnv) :
    (derived_parcels fa).1.head? = some (Event.logInfo startedMsg) ∧
    ∃ pre, (derived_parcels fa).1 =
      pre ++ [Event.logInfo completedMsg, Event.logShutdown] := by
  refine ⟨rfl, ?_⟩
  refine ⟨Event.logInfo startedMsg ::
    ((runSteps tryBody fa).1 ++ handlerBlock prologueNames (raisedExc fa)), ?_⟩
  rw [derived_parcels_trace, finallyEvents_eval]
  simp [List.append_assoc]

/-- C6: the Nehemiah extract.  Parcels_Nehemiah_table receives exactly the
parcel-owners rows whose Owner1 matches one of the four NEHEMIAH LIKE
patterns, and every feature of Parcels_Nehemiah, the KEEP_COMMON join of the
parcel polygons to that table on PIN = PIN1, has a PIN that appears as PIN1 of
some row of the filtered table. -/
theorem c6_nehemiah_extract (owners : List OwnerRow) (polys : List ParcelRow) :
    (∀ r, r ∈ nehemiahTableRows owners ↔ r ∈ owners ∧ nehemiahOwnerMatch r = true) ∧
    (∀ p, p ∈ nehemiahJoinRows polys owners →
        ∃ r, r ∈ nehemiahTableRows owners ∧ r.PIN1 = p.PIN) := by
  constructor
  · intro r
    simp [nehemiahTableRows, tableToTableRows, List.mem_filter]
  · intro p hp
    simp only [nehemiahJoinRows, addJoinKeepCommon] at hp
    rcases List.mem_filter.mp hp with ⟨hpoly, hany⟩
    rcases List.any_eq_true.mp hany with ⟨r, hr, hbeq⟩
    exact ⟨r, hr, eq_of_beq hbeq⟩

/-- C6, witness: a concrete owner row matching the NEHEMIAH EXPANSION pattern
puts its PIN into the filtered table, and the joined parcel with that PIN is
backed by a row of the filtered table. -/
theorem c6_nehemiah_extract_witness :
    ∃ r, r ∈ nehemiahTableRows [probeOwnerRow] ∧ r.PIN1 = probeParcelRow.PIN :=
  (c6_nehemiah_extract [probeOwnerRow] [probeParcelRow]).2 probeParcelRow (by decide)

/-- C7: MowZones is the final derived feature class.  The op stream places the
mowing stage after the seven other derivation stages, followed only by the
delete stage, which creates nothing; the only dataset the mowing stage creates
is MowZones, whose first operation copies the ROW feature class; the last six
operations of the stage calculate the MowedBy, Use_ and Description fields;
and in the denotational model every feature of MowZones after the copy and the
two appends is a ROW feature, a county-trustee parcel whose center lies in the
city limits, or a surplus-property parcel whose center lies in the city
limits. -/
theorem c7_mowzones_final_stage (rowFeats trusteeFeats surplusFeats : List MowFeature)
    (centerInCity : MowFeature → Bool) :
    allOps =
      (permits_to_parcels_ops ++ nehemiah_parcels_ops ++ tsp_parcels_ops ++ city_parcels_ops ++
       surplus_parcels_ops ++ other_subject_parcels_ops ++ poi_parcels_ops) ++
      mowing_parcels_ops ++ delete_stage_ops ∧
    mowing_parcels_ops.filterMap outputOf = [mow_zones] ∧
    delete_stage_ops.filterMap outputOf = [] ∧
    mowing_parcels_ops.head? =
      some (Op.featureClassToFeatureClass row parcel_derivatives "MowZones") ∧
    mowing_parcels_ops.drop 5 =
      [Op.calculateField mow_zones "MowedBy" "\x27PW\x27",
       Op.selectLayerByAttribute mow_zones "NEW_SELECTION"
         "Description LIKE \x27%SANGAMON COUNTY TRUSTEE%\x27",
       Op.calculateFields mow_zones "PYTHON3" [["Use_", "\x27PARCEL\x27"], ["MowedBy", "\x27CONT\x27"]],
       Op.selectLayerByAttribute mow_zones "NEW_SELECTION" "Use_ LIKE \x27%Vacant Lot%\x27",
       Op.calculateField mow_zones "Description" "\x27Vacant Lot\x27",
       Op.calculateFields mow_zones "PYTHON3"
         [["Description", "\x27Vacant Lot\x27"], ["MowedBy", "\x27CONT\x27"]]] ∧
    (∀ x ∈ mowZonesFeatures rowFeats trusteeFeats surplusFeats centerInCity,
        x ∈ rowFeats ∨ (x ∈ trusteeFeats ∧ centerInCity x = true) ∨
        (x ∈ surplusFeats ∧ centerInCity x = true)) := by
  refine ⟨by rfl, by rfl, by rfl, rfl, rfl, ?_⟩
  intro x hx
  simp only [mowZonesFeatures, appendFeatures, selectHaveCenterIn] at hx
  rcases List.mem_append.mp hx with h1 | h2
  · rcases List.mem_append.mp h1 with ha | hb
    · exact Or.inl ha
    · rcases List.mem_filter.mp hb with ⟨hmem, hc⟩
      exact Or.inr (Or.inl ⟨hmem, hc⟩)
  · rcases List.mem_filter.mp h2 with ⟨hmem, hc⟩
    exact Or.inr (Or.inr ⟨hmem, hc⟩)

/-- C7, witness: with one ROW feature, one trustee parcel whose center is in
the city, and no surplus parcels, the trustee feature of the MowZones model is
accounted for by the trustee branch. -/
theorem c7_mowzones_final_stage_witness :
    ({ pin := "T1" } : MowFeature) ∈ ([{ pin := "R1" }] : List MowFeature) ∨
    (({ pin := "T1" } : MowFeature) ∈ ([{ pin := "T1" }] : List MowFeature) ∧
      probeCenterInCity { pin := "T1" } = true) ∨
    (({ pin := "T1" } : MowFeature) ∈ ([] : List MowFeature) ∧
      probeCenterInCity { pin := "T1" } = true) :=
  (c7_mowzones_final_stage [{ pin := "R1" }] [{ pin := "T1" }] [] probeCenterInCity).2.2.2.2.2
    { pin := "T1" } (by decide)

/-- C8: the field-mapping string of the first Append_management call of
mowing_parcels is not well-formed.  The Description mapping is concatenated
directly to the DateAdded mapping with no semicolon between Owner1,0,30 and
DateAdded; the source-table references of the string are the trustee dataset
path and the trustee dataset path wrapped in a stray leading P and trailing e;
and the parallel field-mapping string of the second (surplus) Append call is
well-formed, confirming the intended shape. -/
theorem c8_trustee_field_mapping_defects :
    wellFormedFieldMapping trusteeAppendMapping parcels_trustee = false ∧
    occursIn "Owner1,0,30DateAdded" trusteeAppendMapping = true ∧
    sourceRefs trusteeAppendMapping = [parcels_trustee, "P" ++ parcels_trustee ++ "e"] ∧
    wellFormedFieldMapping surplusAppendMapping parcels_surplus = true := by
  decide

/-- C9: cleanup never touches source data.  Every path of the to_delete list
lies inside the ParcelDerivatives.gdb file geodatabase; the Delete_management
calls of the run target exactly the to_delete list; every deleted dataset was
created by the run itself; and no deleted path lies under the enterprise
database connections or the RDL surplus-property source. -/
theorem c9_cleanup_frame :
    to_delete.all (fun d => strStarts d (parcel_derivatives ++ "\\")) = true ∧
    allOps.filterMap deletedTarget = to_delete ∧
    to_delete.all (fun d => createdDatasets.any (fun c => sameDataset c d)) = true ∧
    to_delete.all (fun d =>
      !(strStarts d sde) && !(strStarts d cityworks_prod) &&
      !(strStarts d cityworks_view) && !(strStarts d rdl)) = true := by
  decide

/-- C10: the NameError fallback branches are unreachable.  The name logger is
bound by the prologue before the try block in every execution, so on every
run, whatever exception is raised, the handlers log through the logger and
never print (the trace holds no console output), and the finally block takes
the branch that logs completion and shuts logging down rather than the pass
branch. -/
theorem c10_nameerror_fallback_unreachable (fa : FailureEnv) :
    loggerDefined prologueNames = true ∧
    consoleCount (derived_parcels fa).1 = 0 ∧
    finallyEvents prologueNames = [Event.logInfo completedMsg, Event.logShutdown] := by
  refine ⟨rfl, ?_, finallyEvents_eval⟩
  rw [derived_parcels_trace, consoleCount_cons_info, consoleCount_append, consoleCount_append,
      runSteps_consoleCount, handlerBlock_consoleCount, finallyEvents_eval]
  rfl

end ParcelDerivatives
